import Mathlib

/-!
Verification of `shopify-webhook-handler` (src/index.js), a webhook receiver
that verifies a Shopify HMAC signature, validates and normalizes an order
payload, deduplicates against an order-level warehouse table, and inserts an
order row plus product rows with bounded retry.

The JavaScript source is shallowly embedded: JSON/JS values are modelled by
`JSVal`, JS numbers (IEEE doubles including `NaN`) by `JSNum` in exact decimal form,
the external warehouse (BigQuery) by an oracle environment `Env`, and the
external `crypto` HMAC primitive by an abstract function argument.  Logging
(`console.log` / `console.warn` / `console.error`) is modelled as a list of
emitted message strings.
-/

namespace ShopifyWebhook

/-- JS numbers as used by the handler: `NaN`, signed infinities, or a finite
value `mant * 10 ^ ex` held in canonical decimal form (zero is `val 0 0`; a
nonzero mantissa is not divisible by 10).  The payload values in play are
decimal fractions, which doubles of this magnitude represent exactly, so
this is an exact model of the numbers the handler computes. -/
inductive JSNum where
  | nan
  | inf (neg : Bool)
  | val (mant : Int) (ex : Int)
  deriving DecidableEq, Repr

/-- Strip factors of 10 from a mantissa (fuel-bounded, the fuel never runs
out for fuel `m.natAbs`), returning the stripped mantissa and the number of
factors removed. -/
def stripTrailingZeros : Nat → Int → Int × Int
  | 0, m => (m, 0)
  | fuel + 1, m =>
    if m ≠ 0 ∧ m % 10 = 0 then
      let r := stripTrailingZeros fuel (m / 10)
      (r.1, r.2 + 1)
    else (m, 0)

/-- Canonicalizing constructor for finite JS numbers. -/
def JSNum.mkVal (m e : Int) : JSNum :=
  if m = 0 then .val 0 0
  else
    let r := stripTrailingZeros m.natAbs m
    .val r.1 (e + r.2)

mutual
/-- JSON/JavaScript runtime values as seen by the handler after
`express.json` parsing (`undefined` arises from missing-property access).
Arrays and objects carry their own list types so that all recursion over
values is plain mutual structural recursion. -/
inductive JSVal where
  | null
  | undefined
  | bool (b : Bool)
  | num (n : JSNum)
  | str (s : String)
  | arr (elems : JSList)
  | obj (fields : JSFields)

/-- The elements of a JS array. -/
inductive JSList where
  | nil
  | cons (hd : JSVal) (tl : JSList)

/-- The own enumerable properties of a JS object, in insertion order. -/
inductive JSFields where
  | nil
  | cons (key : String) (value : JSVal) (tl : JSFields)
end

/-- Build a `JSList` from a Lean list (for writing payload literals). -/
def JSList.ofList : List JSVal → JSList
  | [] => .nil
  | x :: xs => .cons x (JSList.ofList xs)

/-- The elements of a `JSList` as a Lean list. -/
def JSList.toList : JSList → List JSVal
  | .nil => []
  | .cons x tl => x :: tl.toList

/-- Build object fields from a Lean association list. -/
def JSFields.ofList : List (String × JSVal) → JSFields
  | [] => .nil
  | (k, v) :: xs => .cons k v (JSFields.ofList xs)

/-- A JS object literal. -/
def jsObj (l : List (String × JSVal)) : JSVal :=
  .obj (JSFields.ofList l)

/-- A JS array literal. -/
def jsArr (l : List JSVal) : JSVal :=
  .arr (JSList.ofList l)

/-- JS truthiness: `undefined`, `null`, `false`, `0`, `NaN` and `""` are
falsy; every other value (all objects and arrays included) is truthy. -/
def jsTruthy : JSVal → Bool
  | .null => false
  | .undefined => false
  | .bool b => b
  | .num .nan => false
  | .num (.inf _) => true
  | .num (.val m _) => m ≠ 0
  | .str s => s ≠ ""
  | .arr _ => true
  | .obj _ => true

/-- First field with the given key, or `undefined`. -/
def JSFields.lookup : JSFields → String → JSVal
  | .nil, _ => .undefined
  | .cons key value tl, k => if key = k then value else tl.lookup k

/-- Property access `v.k`: a missing field, or access on a non-object,
yields `undefined` (the payload fields read by the handler are not
built-ins, so non-object bases give `undefined`). -/
def jsGet (v : JSVal) (k : String) : JSVal :=
  match v with
  | .obj fields => fields.lookup k
  | _ => .undefined

/-- Short-circuit `a || b`: the left operand if truthy, else the right. -/
def jsOr (a b : JSVal) : JSVal :=
  if jsTruthy a then a else b

/-- The `Array.isArray` test. -/
def jsIsArray : JSVal → Bool
  | .arr _ => true
  | _ => false

/-- Elements of an array value (only consulted after `Array.isArray`). -/
def jsElems : JSVal → List JSVal
  | .arr xs => xs.toList
  | _ => []

/-- Digit list to its natural-number value. -/
def digitsVal (ds : List Char) : Nat :=
  ds.foldl (fun acc c => acc * 10 + (c.toNat - ('0').toNat)) 0

/-- Plain decimal rendering of `n * 10 ^ e` for a canonical nonnegative
mantissa: either the digits padded with zeros, or a decimal point inserted
`|e|` digits from the right (the canonical form has no trailing zeros, as
JS never prints them). -/
def decToStrNat (n : Nat) (e : Int) : String :=
  match e with
  | .ofNat k => Nat.repr n ++ String.mk (List.replicate k '0')
  | .negSucc k' =>
    let k := k' + 1
    let s := Nat.repr n
    if s.length ≤ k then "0." ++ String.mk (List.replicate (k - s.length) '0') ++ s
    else String.mk (s.toList.take (s.length - k)) ++ "." ++
      String.mk (s.toList.drop (s.length - k))

/-- JS `Number`-to-string conversion (ECMA `ToString` on numbers) on the
decimal values the handler manipulates (the exponent-notation regime for
magnitudes ≥ 1e21 or < 1e-6 is outside the values in play). -/
def jsNumToString : JSNum → String
  | .nan => "NaN"
  | .inf false => "Infinity"
  | .inf true => "-Infinity"
  | .val m e => if m < 0 then "-" ++ decToStrNat m.natAbs e else decToStrNat m.natAbs e

mutual
/-- JS `ToString` / `.toString()` as the handler uses it (on ids and on the
operands of `parseFloat`): primitives render in the usual way, arrays join
their rendered elements with `,` per `Array.prototype.join` (with
`null`/`undefined` elements rendered empty), objects render
`[object Object]`. -/
def jsToString : JSVal → String
  | .null => "null"
  | .undefined => "undefined"
  | .bool true => "true"
  | .bool false => "false"
  | .num n => jsNumToString n
  | .str s => s
  | .arr xs => jsJoinList xs
  | .obj _ => "[object Object]"

/-- Join of rendered elements by `Array.prototype.join(",")`. -/
def jsJoinList : JSList → String
  | .nil => ""
  | .cons x tl =>
    (match x with
      | .null => ""
      | .undefined => ""
      | v => jsToString v) ++
    (match tl with
      | .nil => ""
      | .cons _ _ => "," ++ jsJoinList tl)
end

/-- Exponent part of a `parseFloat` literal: `e`/`E`, optional sign, digits;
an ill-formed exponent tail is simply not consumed (value `0`). -/
def parseExponent (cs : List Char) : Int :=
  match cs with
  | 'e' :: rest => parseSignedDigits rest
  | 'E' :: rest => parseSignedDigits rest
  | _ => 0
where
  parseSignedDigits : List Char → Int
    | '-' :: r => - (digitsVal (r.takeWhile Char.isDigit) : Int)
    | '+' :: r => (digitsVal (r.takeWhile Char.isDigit) : Int)
    | r => (digitsVal (r.takeWhile Char.isDigit) : Int)

/-- Body of `parseFloat` after sign handling: longest `StrDecimalLiteral` from
the front — integer digits, optional `.` plus fraction digits, optional
exponent; `NaN` when no digit is found; the keyword `Infinity` accepted. -/
def parseFloatUnsigned (cs : List Char) : JSNum :=
  if cs.take 8 = "Infinity".toList then .inf false
  else
    let intDs := cs.takeWhile Char.isDigit
    let rest := cs.dropWhile Char.isDigit
    let fracDs :=
      match rest with
      | '.' :: r => r.takeWhile Char.isDigit
      | _ => []
    let rest2 :=
      match rest with
      | '.' :: r => r.dropWhile Char.isDigit
      | _ => rest
    if intDs.isEmpty ∧ fracDs.isEmpty then .nan
    else
      let mant : Nat := digitsVal intDs * 10 ^ fracDs.length + digitsVal fracDs
      let ex : Int := parseExponent rest2 - fracDs.length
      .mkVal mant ex

/-- Negation on the parsed result (for a leading `-`); canonical form is
preserved. -/
def jsNumNeg : JSNum → JSNum
  | .nan => .nan
  | .inf b => .inf (!b)
  | .val m e => .val (-m) e

/-- ECMA `parseFloat` on a string: skip leading whitespace, optional sign,
then the longest decimal-literal prefix; `NaN` when none exists. -/
def parseFloatStr (s : String) : JSNum :=
  let cs := s.toList.dropWhile (fun c => c = ' ' ∨ c = '\t' ∨ c = '\n' ∨ c = '\r')
  match cs with
  | '-' :: rest => jsNumNeg (parseFloatUnsigned rest)
  | '+' :: rest => parseFloatUnsigned rest
  | _ => parseFloatUnsigned cs

/-- Application of `parseFloat` to an arbitrary value: ECMA coerces the argument with
`ToString` first, then parses. -/
def parseFloatJS (v : JSVal) : JSNum :=
  parseFloatStr (jsToString v)

/-! ### Configuration and request model (src/index.js lines 9-24) -/

/-- The constant `DATASET_ID` (line 20). -/
def DATASET_ID : String := "retail_mvp"

/-- The constant `ORDERS_TABLE_ID` (line 21). -/
def ORDERS_TABLE_ID : String := "events_orders"

/-- The constant `PRODUCTS_TABLE_ID` (line 22). -/
def PRODUCTS_TABLE_ID : String := "events_v4_product_metrics_table"

/-- Process configuration: `SHOPIFY_WEBHOOK_SECRET` (line 24); `none` models
an unset environment variable. -/
structure Config where
  secret : Option String

/-- An incoming request as the handler sees it: the signature header (absent
modelled as `none`, the code substitutes `""`), the raw body captured by the
JSON middleware (lines 9-15), and the parsed body `req.body`. -/
structure Req where
  hmacHeader : Option String
  rawBody : Option String
  body : JSVal

/-- JS falsiness of the secret (`!SHOPIFY_WEBHOOK_SECRET`): unset or empty. -/
def secretConfigured (cfg : Config) : Bool :=
  match cfg.secret with
  | none => false
  | some s => s ≠ ""

/-! ### Signature verifier (src/index.js 27-56)

`crypto.createHmac("sha256", secret).update(rawBody).digest("base64")` is an
external library primitive; it is modelled by an abstract argument
`hmac : String → String → String` (secret and body to base64 digest).  A real
HMAC-SHA256 base64 digest is always 44 characters long.  `Buffer.from(s,
"utf8")` is modelled by the string itself, its length by the UTF-8 byte size;
two UTF-8 buffers of equal length are equal iff the strings are. -/

/-- The insecure-mode warning printed on lines 29-31. -/
def insecureWarning : String :=
  "SHOPIFY_WEBHOOK_SECRET is not set. Skipping HMAC validation (DEV ONLY)."

/-- Model of `crypto.timingSafeEqual` (line 51): throws when the buffers have
different lengths, otherwise reports byte equality. -/
def timingSafeEqual (a b : String) : Except String Bool :=
  if a.utf8ByteSize = b.utf8ByteSize then .ok (a = b)
  else .error "ERR_CRYPTO_TIMING_SAFE_EQUAL_LENGTH"

/-- The function `verifyShopifyHmac(req)` (lines 27-56): returns the verdict and the
emitted log lines.  The one fallible call, `crypto.timingSafeEqual`, sits
inside a `try`/`catch` that logs and returns `false`, so the function as a
whole returns normally on every input. -/
def verifyShopifyHmac (hmac : String → String → String) (cfg : Config)
    (req : Req) : Bool × List String :=
  if ¬ secretConfigured cfg then
    (true, [insecureWarning])
  else
    let secret := cfg.secret.getD ""
    let headerStr := req.hmacHeader.getD ""
    let rawBody := req.rawBody.getD ""
    let generatedHash := hmac secret rawBody
    if generatedHash.utf8ByteSize ≠ headerStr.utf8ByteSize then
      (false, [])
    else
      match timingSafeEqual generatedHash headerStr with
      | .ok b => (b, [])
      | .error e => (false, ["Error comparing HMAC: " ++ e])

/-! ### Durable writer with retry (src/index.js 59-78) -/

/-- The `console.log` success line of `insertWithRetry` (lines 64-66). -/
def insertSuccessLog (rowCount : Nat) (tableId label : String) : String :=
  "Inserted " ++ Nat.repr rowCount ++ " row(s) into " ++ DATASET_ID ++ "." ++
    tableId ++ " (" ++ label ++ ")"

/-- The `console.error` failure line of `insertWithRetry` (lines 69-72):
records the attempt number, the target table and the error. -/
def insertFailureLog (attempt : Nat) (tableId label err : String) : String :=
  "Attempt " ++ Nat.repr attempt ++ " failed inserting into " ++ DATASET_ID ++
    "." ++ tableId ++ " (" ++ label ++ "): " ++ err

/-- Result of a run of `insertWithRetry`: the outcome (`error` models the
rethrown exception of line 74), the log lines, and the row set passed to
the underlying `table.insert` on each attempt, in order. -/
structure RetryResult (α : Type) where
  outcome : Except String Unit
  logs : List String
  attempts : List (List α)
  deriving Repr

/-- The `for` loop of `insertWithRetry` over the remaining attempt numbers.
`insert` is the external `table.insert` oracle: the outcome of the attempt
with that 1-based number.  If the list of attempts is exhausted without a
return or throw the JS function returns `undefined`, i.e. succeeds. -/
def insertLoop (α : Type) (insert : Nat → Except String Unit)
    (tableId label : String) (rows : List α) (maxAttempts : Nat) :
    List Nat → RetryResult α
  | [] => ⟨.ok (), [], []⟩
  | attempt :: restAttempts =>
    match insert attempt with
    | .ok () =>
        ⟨.ok (), [insertSuccessLog rows.length tableId label], [rows]⟩
    | .error err =>
        let flog := insertFailureLog attempt tableId label err
        if attempt = maxAttempts then
          ⟨.error err, [flog], [rows]⟩
        else
          let r := insertLoop α insert tableId label rows maxAttempts restAttempts
          ⟨r.outcome, flog :: r.logs, rows :: r.attempts⟩

/-- The function `insertWithRetry(table, rows, label)` (lines 59-78): `maxAttempts = 3`,
attempts numbered 1, 2, 3, the same `rows` passed on every attempt. -/
def insertWithRetry (α : Type) (insert : Nat → Except String Unit)
    (tableId label : String) (rows : List α) : RetryResult α :=
  insertLoop α insert tableId label rows 3 [1, 2, 3]

/-! ### Row construction (src/index.js 125-157) -/

/-- The order-level row built on lines 132-140.  `occurred_at`, `shop_id`
and `currency` keep their raw JS values (the fallback chains of lines
126-128 can pass through non-string sender values unchanged). -/
structure OrderRow where
  order_id : String
  occurred_at : JSVal
  shop_id : JSVal
  total_price : JSNum
  total_discount : JSNum
  currency : JSVal
  source : String

/-- The product-level row built per line item on lines 143-157.
`product_id` and `variant_id` are `.toString()`-ed when truthy, else
`null` (modelled by `Option String`); the `x || null` fields keep raw
JS values with `JSVal.null` as the absent marker. -/
structure ProductRow where
  order_id : String
  occurred_at : JSVal
  shop_id : JSVal
  product_id : Option String
  product_title : JSVal
  variant_id : Option String
  variant_title : JSVal
  quantity : JSVal
  price : JSNum
  total_discount : JSNum
  vendor : JSVal
  currency : JSVal
  source : String

/-- The constant provenance tag `source` (line 129). -/
def sourceTag : String := "shopify_webhook"

/-- Lines 125-140: the common fields and the order row.  `now` is the
receipt-time ISO string `new Date().toISOString()`. -/
def mkOrderRow (orderId : String) (now : String) (order : JSVal) : OrderRow :=
  { order_id := orderId
    occurred_at := jsOr (jsGet order "created_at") (.str now)
    shop_id := jsOr (jsGet order "source_name") (.str "SHOPIFY")
    total_price := parseFloatJS (jsOr (jsGet order "total_price") (.num (.val 0 0)))
    total_discount := parseFloatJS (jsOr (jsGet order "total_discounts") (.num (.val 0 0)))
    currency := jsOr (jsGet order "currency") (.str "USD")
    source := sourceTag }

/-- One element of the `order.line_items.map(...)` of lines 143-157, given
the already-computed common fields. -/
def mkProductRow (orderId : String) (occurred_at shop_id currency : JSVal)
    (item : JSVal) : ProductRow :=
  { order_id := orderId
    occurred_at := occurred_at
    shop_id := shop_id
    product_id :=
      if jsTruthy (jsGet item "product_id") then some (jsToString (jsGet item "product_id"))
      else none
    product_title := jsOr (jsGet item "title") .null
    variant_id :=
      if jsTruthy (jsGet item "variant_id") then some (jsToString (jsGet item "variant_id"))
      else none
    variant_title := jsOr (jsGet item "variant_title") .null
    quantity := jsOr (jsGet item "quantity") (.num (.val 0 0))
    price := parseFloatJS (jsOr (jsGet item "price") (.num (.val 0 0)))
    total_discount := parseFloatJS (jsOr (jsGet item "total_discount") (.num (.val 0 0)))
    vendor := jsOr (jsGet item "vendor") .null
    currency := currency
    source := sourceTag }

/-- Steps 3-5 of the handler (lines 125-157): common fields computed once,
then the order row and the product rows, reusing those fields. -/
def prepareRows (orderId : String) (now : String) (order : JSVal) :
    OrderRow × List ProductRow :=
  let occurred_at := jsOr (jsGet order "created_at") (.str now)
  let shop_id := jsOr (jsGet order "source_name") (.str "SHOPIFY")
  let currency := jsOr (jsGet order "currency") (.str "USD")
  (mkOrderRow orderId now order,
   (jsElems (jsGet order "line_items")).map
     (mkProductRow orderId occurred_at shop_id currency))

/-! ### Request orchestrator (src/index.js 81-174) -/

/-- The warehouse oracle: the set of order ids already present in the
orders table (what the dedup query of lines 108-116 consults), an optional
error thrown by that query, and the per-attempt outcomes of the two
`table.insert` calls. -/
structure Env where
  existingOrders : List String
  queryError : Option String
  orderInsert : Nat → Except String Unit
  productInsert : Nat → Except String Unit

/-- One warehouse operation performed by a request, in order: the dedup
existence query, or one `table.insert` attempt against one of the two
tables carrying the exact row set passed. -/
inductive WhOp where
  | query (orderId : String)
  | insertOrders (rows : List OrderRow)
  | insertProducts (rows : List ProductRow)

/-- The handler's observable outcome: HTTP status, response body, the
ordered trace of warehouse operations, and the log lines. -/
structure HandlerOut where
  status : Nat
  respBody : String
  trace : List WhOp
  logs : List String

/-- The endpoint `app.post("/")` (lines 81-174).  `hmac` abstracts the crypto library,
`now` the receipt time, `env` the warehouse.  The `try`/`catch` of lines
84-173 maps the query error and the exhausted-retry errors to 500. -/
def handlePost (hmac : String → String → String) (cfg : Config)
    (now : String) (env : Env) (req : Req) : HandlerOut :=
  let v := verifyShopifyHmac hmac cfg req
  if ¬ v.1 then
    ⟨401, "Invalid signature", [],
      v.2 ++ ["Invalid Shopify HMAC. Rejecting webhook."]⟩
  else
    let order := req.body
    if ¬ jsTruthy order ∨ ¬ jsTruthy (jsGet order "id") ∨
        ¬ jsIsArray (jsGet order "line_items") then
      ⟨400, "Invalid payload", [], v.2 ++ ["Invalid payload"]⟩
    else
      let orderId := jsToString (jsGet order "id")
      let receivedLog :=
        "Received order " ++ orderId ++ " with " ++
          Nat.repr (jsElems (jsGet order "line_items")).length ++ " line items"
      match env.queryError with
      | some e =>
          ⟨500, "Internal error", [.query orderId],
            v.2 ++ [receivedLog, "Unhandled error while processing webhook: " ++ e]⟩
      | none =>
        if orderId ∈ env.existingOrders then
          ⟨200, "Already processed", [.query orderId],
            v.2 ++ [receivedLog,
              "Order " ++ orderId ++
                " already processed earlier. Skipping inserts and returning 200."]⟩
        else
          let rows := prepareRows orderId now order
          let r1 := insertWithRetry OrderRow env.orderInsert ORDERS_TABLE_ID
            "orders" [rows.1]
          let trace1 := WhOp.query orderId :: r1.attempts.map WhOp.insertOrders
          match r1.outcome with
          | .error e =>
              ⟨500, "Internal error", trace1,
                v.2 ++ [receivedLog] ++ r1.logs ++
                  ["Unhandled error while processing webhook: " ++ e]⟩
          | .ok () =>
            let r2 := insertWithRetry ProductRow env.productInsert
              PRODUCTS_TABLE_ID "product_metrics" rows.2
            let trace2 := trace1 ++ r2.attempts.map WhOp.insertProducts
            match r2.outcome with
            | .error e =>
                ⟨500, "Internal error", trace2,
                  v.2 ++ [receivedLog] ++ r1.logs ++ r2.logs ++
                    ["Unhandled error while processing webhook: " ++ e]⟩
            | .ok () =>
                ⟨200, "OK", trace2,
                  v.2 ++ [receivedLog] ++ r1.logs ++ r2.logs ++
                    ["Order " ++ orderId ++ " stored successfully: 1 order row, " ++
                      Nat.repr rows.2.length ++ " product rows"]⟩

/-! ### Theorems -/

/-- C5: when no secret is configured (unset or empty environment variable),
`verifyShopifyHmac` returns `true` for every input — any body and any
signature header value, including absent or empty — and every such call
emits exactly the operator-visible warning line; the accept is never
silent. -/
theorem verify_insecure_mode (hmac : String → String → String) (cfg : Config)
    (req : Req) (h : secretConfigured cfg = false) :
    verifyShopifyHmac hmac cfg req = (true, [insecureWarning]) := by
  simp [verifyShopifyHmac, h]

/-- Witness for C5: a concrete call with no secret, an empty header and a
tampered body is accepted with the warning emitted. -/
theorem verify_insecure_mode_witness :
    secretConfigured ⟨none⟩ = false ∧
      verifyShopifyHmac (fun _ _ => "digest") ⟨none⟩
        ⟨some "", some "tampered body", .null⟩ = (true, [insecureWarning]) :=
  ⟨by decide,
   verify_insecure_mode (fun _ _ => "digest") ⟨none⟩
     ⟨some "", some "tampered body", .null⟩ (by decide)⟩

/-- C4: with a secret configured, `verifyShopifyHmac` returns normally on
every input (the one fallible call, `crypto.timingSafeEqual`, sits behind a
length guard and a `catch` that returns `false`): the verdict is `true`
exactly when the base64 HMAC digest computed over the raw body equals the
header value; whenever the two have different (byte) lengths the verdict is
`false` — decided before any content comparison, since it holds for every
digest function; and an absent header is rejected because a real
HMAC-SHA256 base64 digest is 44 characters long. -/
theorem verify_totality_and_rejection (hmac : String → String → String)
    (cfg : Config) (req : Req) (hsec : secretConfigured cfg = true) :
    ((verifyShopifyHmac hmac cfg req).1 = true ↔
      hmac (cfg.secret.getD "") (req.rawBody.getD "") = req.hmacHeader.getD "") ∧
    ((hmac (cfg.secret.getD "") (req.rawBody.getD "")).utf8ByteSize ≠
        (req.hmacHeader.getD "").utf8ByteSize →
      (verifyShopifyHmac hmac cfg req).1 = false) ∧
    (req.hmacHeader = none →
      (hmac (cfg.secret.getD "") (req.rawBody.getD "")).utf8ByteSize = 44 →
      (verifyShopifyHmac hmac cfg req).1 = false) := by
  have hlen : ∀ a b : String, a = b → a.utf8ByteSize = b.utf8ByteSize := by
    intro a b h; rw [h]
  refine ⟨?_, ?_, ?_⟩
  · by_cases hb : (hmac (cfg.secret.getD "") (req.rawBody.getD "")).utf8ByteSize =
        (req.hmacHeader.getD "").utf8ByteSize
    · simp [verifyShopifyHmac, hsec, timingSafeEqual, hb]
    · simp only [verifyShopifyHmac, hsec]
      simp [hb]
      intro h
      exact hb (hlen _ _ h)
  · intro hb
    simp [verifyShopifyHmac, hsec, hb]
  · intro habs h44
    have h0 : ("" : String).utf8ByteSize = 0 := rfl
    simp [verifyShopifyHmac, hsec, habs, h44, h0]

/-- Witness for C4: a concrete configured secret with a 44-character digest
and an absent header; all three rejection clauses evaluate at it. -/
theorem verify_totality_and_rejection_witness :
    secretConfigured ⟨some "shhh"⟩ = true ∧
      (verifyShopifyHmac (fun _ _ => "0123456789012345678901234567890123456789MAC=")
        ⟨some "shhh"⟩ ⟨none, some "body", .null⟩).1 = false :=
  ⟨by decide,
   (verify_totality_and_rejection
      (fun _ _ => "0123456789012345678901234567890123456789MAC=")
      ⟨some "shhh"⟩ ⟨none, some "body", .null⟩ (by decide)).2.2 rfl (by decide)⟩

/-- C3: `insertWithRetry` performs at most 3 attempts, each passing the same
row set to the underlying insert; when attempts 1 and 2 fail and attempt 3
succeeds no error is surfaced; when all 3 attempts fail, exactly the third
error is propagated, after exactly three failure log entries each recording
its attempt number, the table and its error; an error is propagated only
when all three attempts failed; an immediate or second-attempt success also
surfaces no error. -/
theorem insertWithRetry_bound (α : Type) (insert : Nat → Except String Unit)
    (tableId label : String) (rows : List α) (r : RetryResult α)
    (hr : r = insertWithRetry α insert tableId label rows) :
    (∀ a ∈ r.attempts, a = rows) ∧
    r.attempts.length ≤ 3 ∧
    (∀ e1 e2, insert 1 = .error e1 → insert 2 = .error e2 → insert 3 = .ok () →
      r.outcome = .ok () ∧ r.attempts = [rows, rows, rows]) ∧
    (∀ e1 e2 e3, insert 1 = .error e1 → insert 2 = .error e2 →
      insert 3 = .error e3 →
      r.outcome = .error e3 ∧ r.attempts = [rows, rows, rows] ∧
      r.logs = [insertFailureLog 1 tableId label e1,
                insertFailureLog 2 tableId label e2,
                insertFailureLog 3 tableId label e3]) ∧
    (∀ e, r.outcome = .error e →
      insert 3 = .error e ∧ (∃ e1, insert 1 = .error e1) ∧
        ∃ e2, insert 2 = .error e2) ∧
    (insert 1 = .ok () → r.outcome = .ok () ∧ r.attempts = [rows]) ∧
    (∀ e1, insert 1 = .error e1 → insert 2 = .ok () →
      r.outcome = .ok () ∧ r.attempts = [rows, rows]) := by
  subst hr
  rcases h1 : insert 1 with _ | e1 <;> rcases h2 : insert 2 with _ | e2 <;>
    rcases h3 : insert 3 with _ | e3 <;>
    simp [insertWithRetry, insertLoop, h1, h2, h3]

/-- Witness for C3: a concrete insert oracle failing on the first two
attempts and succeeding on the third; the run succeeds with three
equal-row attempts. -/
theorem insertWithRetry_bound_witness :
    (insertWithRetry Nat (fun a => if a ≤ 2 then .error "boom" else .ok ())
        "events_orders" "orders" [5]).outcome = .ok () ∧
      (insertWithRetry Nat (fun a => if a ≤ 2 then .error "boom" else .ok ())
        "events_orders" "orders" [5]).attempts = [[5], [5], [5]] :=
  (insertWithRetry_bound Nat
      (fun a => if a ≤ 2 then .error "boom" else .ok ())
      "events_orders" "orders" [5] _ rfl).2.2.1 "boom" "boom" rfl rfl rfl

/-- C1: for every request that passes verification and validation, whose
dedup query succeeds, and whose order id is already present in the
order-level table, the handler answers 200 "Already processed" and its
warehouse trace is exactly the one existence query — zero insert calls,
and the query precedes any (absent) write. -/
theorem duplicate_short_circuit (hmac : String → String → String)
    (cfg : Config) (now : String) (env : Env) (req : Req)
    (hverify : (verifyShopifyHmac hmac cfg req).1 = true)
    (h1 : jsTruthy req.body = true)
    (h2 : jsTruthy (jsGet req.body "id") = true)
    (h3 : jsIsArray (jsGet req.body "line_items") = true)
    (hq : env.queryError = none)
    (hdup : jsToString (jsGet req.body "id") ∈ env.existingOrders) :
    (handlePost hmac cfg now env req).status = 200 ∧
    (handlePost hmac cfg now env req).respBody = "Already processed" ∧
    (handlePost hmac cfg now env req).trace =
      [WhOp.query (jsToString (jsGet req.body "id"))] := by
  simp [handlePost, hverify, h1, h2, h3, hq, hdup]

/-- Witness for C1: a concrete duplicate order (id 123 already stored);
the run answers 200 "Already processed" with a single-query trace even
though both insert oracles would fail. -/
theorem duplicate_short_circuit_witness :
    (handlePost (fun _ _ => "sig") ⟨some "s"⟩ "2024-02-02T00:00:00.000Z"
        ⟨["123"], none, fun _ => .error "down", fun _ => .error "down"⟩
        ⟨some "sig", some "raw", jsObj [("id", .num (.val 123 0)),
          ("line_items", jsArr [])]⟩).status = 200 ∧
    (handlePost (fun _ _ => "sig") ⟨some "s"⟩ "2024-02-02T00:00:00.000Z"
        ⟨["123"], none, fun _ => .error "down", fun _ => .error "down"⟩
        ⟨some "sig", some "raw", jsObj [("id", .num (.val 123 0)),
          ("line_items", jsArr [])]⟩).respBody = "Already processed" ∧
    (handlePost (fun _ _ => "sig") ⟨some "s"⟩ "2024-02-02T00:00:00.000Z"
        ⟨["123"], none, fun _ => .error "down", fun _ => .error "down"⟩
        ⟨some "sig", some "raw", jsObj [("id", .num (.val 123 0)),
          ("line_items", jsArr [])]⟩).trace = [WhOp.query "123"] := by
  have h := duplicate_short_circuit (fun _ _ => "sig") ⟨some "s"⟩
    "2024-02-02T00:00:00.000Z"
    ⟨["123"], none, fun _ => .error "down", fun _ => .error "down"⟩
    ⟨some "sig", some "raw", jsObj [("id", .num (.val 123 0)),
      ("line_items", jsArr [])]⟩
    (by decide) (by decide) (by decide) (by decide) rfl (by decide)
  exact ⟨h.1, h.2.1, by rw [h.2.2]; rfl⟩

/-- The outcome-to-status mapping in the spec's words (§4.5 state machine):
401 on verification failure, 400 on validation failure, 500 on a dedup-query
(uncaught) error, 200 "Already processed" on a duplicate, 500 when either
table write fails after retries, 200 "OK" when both writes succeed. -/
def specOutcomeResponse (verified valid : Bool) (queryError : Option String)
    (dup : Bool) (w1 w2 : Except String Unit) : Nat × String :=
  if ¬ verified then (401, "Invalid signature")
  else if ¬ valid then (400, "Invalid payload")
  else
    match queryError with
    | some _ => (500, "Internal error")
    | none =>
      if dup then (200, "Already processed")
      else
        match w1 with
        | .error _ => (500, "Internal error")
        | .ok () =>
          match w2 with
          | .error _ => (500, "Internal error")
          | .ok () => (200, "OK")

/-- C2: the handler's status and body realize the spec's outcome mapping on
every input: 401 on signature failure, 400 on structural-validation failure,
500 when the dedup query throws (an uncaught pipeline error), 200 "Already
processed" on a duplicate, 500 when either table write still fails after
the retries, and 200 "OK" when both writes succeed; each failure branch
returns immediately, so exactly one response is produced. -/
theorem outcome_status_mapping (hmac : String → String → String) (cfg : Config)
    (now : String) (env : Env) (req : Req) :
    ((handlePost hmac cfg now env req).status,
      (handlePost hmac cfg now env req).respBody) =
      specOutcomeResponse (verifyShopifyHmac hmac cfg req).1
        (jsTruthy req.body && jsTruthy (jsGet req.body "id") &&
          jsIsArray (jsGet req.body "line_items"))
        env.queryError
        (decide (jsToString (jsGet req.body "id") ∈ env.existingOrders))
        (insertWithRetry OrderRow env.orderInsert ORDERS_TABLE_ID "orders"
          [(prepareRows (jsToString (jsGet req.body "id")) now req.body).1]).outcome
        (insertWithRetry ProductRow env.productInsert PRODUCTS_TABLE_ID
          "product_metrics"
          (prepareRows (jsToString (jsGet req.body "id")) now req.body).2).outcome := by
  cases hv : (verifyShopifyHmac hmac cfg req).1 with
  | false => simp [handlePost, specOutcomeResponse, hv]
  | true =>
    by_cases h1 : jsTruthy req.body = true
    · by_cases h2 : jsTruthy (jsGet req.body "id") = true
      · by_cases h3 : jsIsArray (jsGet req.body "line_items") = true
        · cases hq : env.queryError with
          | some e => simp [handlePost, specOutcomeResponse, hv, h1, h2, h3, hq]
          | none =>
            by_cases hdup : jsToString (jsGet req.body "id") ∈ env.existingOrders
            · simp [handlePost, specOutcomeResponse, hv, h1, h2, h3, hq, hdup]
            · cases hr1 : (insertWithRetry OrderRow env.orderInsert
                  ORDERS_TABLE_ID "orders"
                  [(prepareRows (jsToString (jsGet req.body "id")) now
                    req.body).1]).outcome with
              | error e =>
                simp [handlePost, specOutcomeResponse, hv, h1, h2, h3, hq, hdup,
                  hr1]
              | ok u =>
                cases hr2 : (insertWithRetry ProductRow env.productInsert
                    PRODUCTS_TABLE_ID "product_metrics"
                    (prepareRows (jsToString (jsGet req.body "id")) now
                      req.body).2).outcome with
                | error e =>
                  simp [handlePost, specOutcomeResponse, hv, h1, h2, h3, hq,
                    hdup, hr1, hr2]
                | ok u =>
                  simp [handlePost, specOutcomeResponse, hv, h1, h2, h3, hq,
                    hdup, hr1, hr2]
        · simp [handlePost, specOutcomeResponse, hv, h1, h2, h3]
      · simp [handlePost, specOutcomeResponse, hv, h1, h2]
    · simp [handlePost, specOutcomeResponse, hv, h1]

/-- C8: every request rejected with 401 (signature failure) or 400
(validation failure) performs zero warehouse operations — no existence
query and no insert against either table (empty trace) — including 401
rejections of structurally valid payloads. -/
theorem early_reject_no_warehouse (hmac : String → String → String)
    (cfg : Config) (now : String) (env : Env) (req : Req)
    (h : (handlePost hmac cfg now env req).status = 401 ∨
      (handlePost hmac cfg now env req).status = 400) :
    (handlePost hmac cfg now env req).trace = [] := by
  cases hv : (verifyShopifyHmac hmac cfg req).1 with
  | false => simp [handlePost, hv]
  | true =>
    by_cases h1 : jsTruthy req.body = true
    · by_cases h2 : jsTruthy (jsGet req.body "id") = true
      · by_cases h3 : jsIsArray (jsGet req.body "line_items") = true
        · exfalso
          cases hq : env.queryError with
          | some e => simp [handlePost, hv, h1, h2, h3, hq] at h
          | none =>
            by_cases hdup : jsToString (jsGet req.body "id") ∈ env.existingOrders
            · simp [handlePost, hv, h1, h2, h3, hq, hdup] at h
            · cases hr1 : (insertWithRetry OrderRow env.orderInsert
                  ORDERS_TABLE_ID "orders"
                  [(prepareRows (jsToString (jsGet req.body "id")) now
                    req.body).1]).outcome with
              | error e => simp [handlePost, hv, h1, h2, h3, hq, hdup, hr1] at h
              | ok u =>
                cases hr2 : (insertWithRetry ProductRow env.productInsert
                    PRODUCTS_TABLE_ID "product_metrics"
                    (prepareRows (jsToString (jsGet req.body "id")) now
                      req.body).2).outcome with
                | error e =>
                  simp [handlePost, hv, h1, h2, h3, hq, hdup, hr1, hr2] at h
                | ok u =>
                  simp [handlePost, hv, h1, h2, h3, hq, hdup, hr1, hr2] at h
        · simp [handlePost, hv, h1, h2, h3]
      · simp [handlePost, hv, h1, h2]
    · simp [handlePost, hv, h1]

/-- Witness for C8: a structurally valid payload whose signature header does
not match the computed digest is answered 401 with an empty warehouse
trace. -/
theorem early_reject_no_warehouse_witness :
    (handlePost (fun _ _ => "digest") ⟨some "s"⟩ "2024-02-02T00:00:00.000Z"
        ⟨[], none, fun _ => .ok (), fun _ => .ok ()⟩
        ⟨some "stale-signature", some "tampered", jsObj [("id", .num (.val 123 0)),
          ("line_items", jsArr [])]⟩).trace = [] :=
  early_reject_no_warehouse (fun _ _ => "digest") ⟨some "s"⟩
    "2024-02-02T00:00:00.000Z" ⟨[], none, fun _ => .ok (), fun _ => .ok ()⟩
    ⟨some "stale-signature", some "tampered", jsObj [("id", .num (.val 123 0)),
      ("line_items", jsArr [])]⟩ (Or.inl rfl)

/-- C10: a request whose body carries an `id` field equal to the number `0`
or to the empty string is rejected 400 "Invalid payload" although the field
is present, because `!order.id` tests truthiness, not presence. -/
theorem falsy_order_id_rejected (hmac : String → String → String)
    (cfg : Config) (now : String) (env : Env) (req : Req)
    (hverify : (verifyShopifyHmac hmac cfg req).1 = true)
    (hid : jsGet req.body "id" = .num (.val 0 0) ∨ jsGet req.body "id" = .str "") :
    (handlePost hmac cfg now env req).status = 400 ∧
    (handlePost hmac cfg now env req).respBody = "Invalid payload" := by
  have htr : jsTruthy (jsGet req.body "id") = false := by
    rcases hid with hid | hid <;> rw [hid] <;> rfl
  simp [handlePost, hverify, htr]

/-- Witness for C10: insecure-mode verification plus a body with `id: 0`
and a well-formed line-item array still yields 400 "Invalid payload". -/
theorem falsy_order_id_rejected_witness :
    (handlePost (fun _ _ => "d") ⟨none⟩ "2024-02-02T00:00:00.000Z"
        ⟨[], none, fun _ => .ok (), fun _ => .ok ()⟩
        ⟨some "", some "", jsObj [("id", .num (.val 0 0)),
          ("line_items", jsArr [])]⟩).status = 400 ∧
    (handlePost (fun _ _ => "d") ⟨none⟩ "2024-02-02T00:00:00.000Z"
        ⟨[], none, fun _ => .ok (), fun _ => .ok ()⟩
        ⟨some "", some "", jsObj [("id", .num (.val 0 0)),
          ("line_items", jsArr [])]⟩).respBody = "Invalid payload" :=
  falsy_order_id_rejected (fun _ _ => "d") ⟨none⟩ "2024-02-02T00:00:00.000Z"
    ⟨[], none, fun _ => .ok (), fun _ => .ok ()⟩
    ⟨some "", some "", jsObj [("id", .num (.val 0 0)),
      ("line_items", jsArr [])]⟩ rfl (Or.inl rfl)

/-- C6 counterexample: a non-numeric string in a monetary field does not
coerce to a number — `parseFloat(order.total_price || 0)` on the provided
string "not a number" leaves the NaN placeholder in the order row. -/
theorem numeric_coercion_cex :
    (mkOrderRow "77" "2024-05-05T00:00:00.000Z"
      (jsObj [("id", .num (.val 77 0)),
        ("total_price", .str "not a number"),
        ("line_items", jsArr [])])).total_price = JSNum.nan := rfl

/-- C6 amended: for each monetary field, a missing or empty-string input
coerces to zero and a provided non-empty string coerces to its JS
`parseFloat` value — the parsed number when the string has a numeric
prefix, but the NaN placeholder when it has none (so the output is not
numeric for non-numeric strings). -/
theorem numeric_coercion_amended (orderId now : String)
    (order occ sh cur item : JSVal) :
    (jsGet order "total_price" = .undefined →
      (mkOrderRow orderId now order).total_price = .val 0 0) ∧
    (jsGet order "total_price" = .str "" →
      (mkOrderRow orderId now order).total_price = .val 0 0) ∧
    (∀ s : String, s ≠ "" → jsGet order "total_price" = .str s →
      (mkOrderRow orderId now order).total_price = parseFloatStr s) ∧
    (jsGet order "total_discounts" = .undefined →
      (mkOrderRow orderId now order).total_discount = .val 0 0) ∧
    (jsGet order "total_discounts" = .str "" →
      (mkOrderRow orderId now order).total_discount = .val 0 0) ∧
    (∀ s : String, s ≠ "" → jsGet order "total_discounts" = .str s →
      (mkOrderRow orderId now order).total_discount = parseFloatStr s) ∧
    (jsGet item "price" = .undefined →
      (mkProductRow orderId occ sh cur item).price = .val 0 0) ∧
    (jsGet item "price" = .str "" →
      (mkProductRow orderId occ sh cur item).price = .val 0 0) ∧
    (∀ s : String, s ≠ "" → jsGet item "price" = .str s →
      (mkProductRow orderId occ sh cur item).price = parseFloatStr s) ∧
    (jsGet item "total_discount" = .undefined →
      (mkProductRow orderId occ sh cur item).total_discount = .val 0 0) ∧
    (jsGet item "total_discount" = .str "" →
      (mkProductRow orderId occ sh cur item).total_discount = .val 0 0) ∧
    (∀ s : String, s ≠ "" → jsGet item "total_discount" = .str s →
      (mkProductRow orderId occ sh cur item).total_discount = parseFloatStr s) := by
  refine ⟨?_, ?_, ?_, ?_, ?_, ?_, ?_, ?_, ?_, ?_, ?_, ?_⟩ <;>
    first
    | (intro h; simp [mkOrderRow, mkProductRow, h, jsOr, jsTruthy]; rfl)
    | (intro s hs h;
       simp [mkOrderRow, mkProductRow, h, jsOr, jsTruthy, hs, parseFloatJS,
         jsToString])

/-- Witness for C6 amended: the order-level monetary fields for a body with
`total_price: "19.99"` and no `total_discounts`: the price parses to 19.99
and the discount defaults to zero. -/
theorem numeric_coercion_amended_witness :
    (mkOrderRow "1" "2024-05-05T00:00:00.000Z"
        (jsObj [("total_price", .str "19.99")])).total_price =
      parseFloatStr "19.99" ∧
    parseFloatStr "19.99" = .val 1999 (-2) ∧
    (mkOrderRow "1" "2024-05-05T00:00:00.000Z"
        (jsObj [("total_price", .str "19.99")])).total_discount = .val 0 0 :=
  ⟨(numeric_coercion_amended "1" "2024-05-05T00:00:00.000Z"
      (jsObj [("total_price", .str "19.99")]) .null .null .null .null).2.2.1
      "19.99" (by decide) rfl,
   by decide,
   (numeric_coercion_amended "1" "2024-05-05T00:00:00.000Z"
      (jsObj [("total_price", .str "19.99")]) .null .null .null .null).2.2.2.1
      rfl⟩

/-- C7 counterexample: a line item that provides `title: ""` produces the
same `product_title` as one that omits the field entirely — both become the
absent marker `null`, so a provided empty string is not preserved and not
distinguishable from absence. -/
theorem optional_fields_cex :
    (mkProductRow "1" (.str "T") (.str "S") (.str "USD")
      (jsObj [("title", .str "")])).product_title = JSVal.null ∧
    (mkProductRow "1" (.str "T") (.str "S") (.str "USD")
      (jsObj [])).product_title = JSVal.null :=
  ⟨rfl, rfl⟩

/-- C7 amended: the optional line-item fields (`title`, `vendor`,
`variant_title`) pass through unchanged exactly when the provided value is
truthy; every falsy value — absent, `null`, or a provided empty string —
becomes the absent marker `null`, so a provided empty string is
indistinguishable from an absent field. -/
theorem optional_fields_amended (orderId : String) (occ sh cur item : JSVal) :
    (jsTruthy (jsGet item "title") = true →
      (mkProductRow orderId occ sh cur item).product_title = jsGet item "title") ∧
    (jsTruthy (jsGet item "title") = false →
      (mkProductRow orderId occ sh cur item).product_title = JSVal.null) ∧
    (jsTruthy (jsGet item "vendor") = true →
      (mkProductRow orderId occ sh cur item).vendor = jsGet item "vendor") ∧
    (jsTruthy (jsGet item "vendor") = false →
      (mkProductRow orderId occ sh cur item).vendor = JSVal.null) ∧
    (jsTruthy (jsGet item "variant_title") = true →
      (mkProductRow orderId occ sh cur item).variant_title =
        jsGet item "variant_title") ∧
    (jsTruthy (jsGet item "variant_title") = false →
      (mkProductRow orderId occ sh cur item).variant_title = JSVal.null) := by
  refine ⟨?_, ?_, ?_, ?_, ?_, ?_⟩ <;> intro h <;>
    simp [mkProductRow, jsOr, h]

/-- Witness for C7 amended: a provided non-empty title passes through; a
provided empty vendor collapses to `null`. -/
theorem optional_fields_amended_witness :
    (mkProductRow "1" (.str "T") (.str "S") (.str "USD")
        (jsObj [("title", .str "Widget"), ("vendor", .str "")])).product_title =
      jsGet (jsObj [("title", .str "Widget"), ("vendor", .str "")]) "title" ∧
    (mkProductRow "1" (.str "T") (.str "S") (.str "USD")
        (jsObj [("title", .str "Widget"), ("vendor", .str "")])).vendor =
      JSVal.null :=
  ⟨(optional_fields_amended "1" (.str "T") (.str "S") (.str "USD")
      (jsObj [("title", .str "Widget"), ("vendor", .str "")])).1 rfl,
   (optional_fields_amended "1" (.str "T") (.str "S") (.str "USD")
      (jsObj [("title", .str "Widget"), ("vendor", .str "")])).2.2.2.1 rfl⟩

/-- Modelled from the spec: "use the sender-provided creation timestamp if
present and parseable" — parseability of a creation timestamp, as a JS
`Date` parse would judge it, restricted to the ISO-8601 shape Shopify
sends: a string starting with a four-digit year, `-`, two-digit month,
`-`, two-digit day.  A string such as "garbage" is not parseable. -/
def specParseableTimestamp : JSVal → Bool
  | .str s =>
    match s.toList with
    | y1 :: y2 :: y3 :: y4 :: '-' :: m1 :: m2 :: '-' :: d1 :: d2 :: _ =>
      y1.isDigit && y2.isDigit && y3.isDigit && y4.isDigit &&
        m1.isDigit && m2.isDigit && d1.isDigit && d2.isDigit
    | _ => false
  | _ => false

/-- The spec's occurrence-timestamp rule, for comparison with the code:
the sender-provided creation timestamp if present and parseable, otherwise
the time of receipt. -/
def specOccurredAt (created_at : JSVal) (now : String) : JSVal :=
  if specParseableTimestamp created_at then created_at else .str now

/-- C9 counterexample: for a present but unparseable creation timestamp
("garbage"), the code keeps the sender string while the spec's rule demands
the receipt time — `order.created_at || now` tests only truthiness, never
parseability. -/
theorem occurred_at_parseable_cex :
    (mkOrderRow "9" "2024-01-01T00:00:00.000Z"
      (jsObj [("id", .num (.val 9 0)), ("created_at", .str "garbage"),
        ("line_items", jsArr [])])).occurred_at = JSVal.str "garbage" ∧
    specParseableTimestamp (.str "garbage") = false ∧
    specOccurredAt (.str "garbage") "2024-01-01T00:00:00.000Z" =
      JSVal.str "2024-01-01T00:00:00.000Z" :=
  ⟨rfl, rfl, rfl⟩

/-- C9 amended: the occurrence timestamp is the sender-provided creation
timestamp whenever that value is truthy — parseable or not — and the time
of receipt otherwise; it is computed once and is identical between the
OrderRow and every ProductRow of the same request. -/
theorem occurred_at_amended (orderId now : String) (order : JSVal) :
    (prepareRows orderId now order).1.occurred_at =
      jsOr (jsGet order "created_at") (.str now) ∧
    ∀ p ∈ (prepareRows orderId now order).2,
      p.occurred_at = (prepareRows orderId now order).1.occurred_at := by
  refine ⟨rfl, ?_⟩
  intro p hp
  simp only [prepareRows, List.mem_map] at hp
  obtain ⟨item, _, hitem⟩ := hp
  rw [← hitem]
  rfl

/-- Witness for C9 amended: a concrete order with one line item and an
unparseable but truthy `created_at`; the order row and the product row
share that very value. -/
theorem occurred_at_amended_witness :
    (prepareRows "123" "2024-02-02T00:00:00.000Z"
        (jsObj [("id", .num (.val 123 0)), ("created_at", .str "garbage"),
          ("line_items", jsArr [jsObj [("title", .str "Widget")]])])).1.occurred_at =
      jsOr (jsGet (jsObj [("id", .num (.val 123 0)),
          ("created_at", .str "garbage"),
          ("line_items", jsArr [jsObj [("title", .str "Widget")]])]) "created_at")
        (.str "2024-02-02T00:00:00.000Z") ∧
    (mkProductRow "123"
        (jsOr (jsGet (jsObj [("id", .num (.val 123 0)),
            ("created_at", .str "garbage"),
            ("line_items", jsArr [jsObj [("title", .str "Widget")]])]) "created_at")
          (.str "2024-02-02T00:00:00.000Z"))
        (jsOr (jsGet (jsObj [("id", .num (.val 123 0)),
            ("created_at", .str "garbage"),
            ("line_items", jsArr [jsObj [("title", .str "Widget")]])]) "source_name")
          (.str "SHOPIFY"))
        (jsOr (jsGet (jsObj [("id", .num (.val 123 0)),
            ("created_at", .str "garbage"),
            ("line_items", jsArr [jsObj [("title", .str "Widget")]])]) "currency")
          (.str "USD"))
        (jsObj [("title", .str "Widget")])).occurred_at =
      (prepareRows "123" "2024-02-02T00:00:00.000Z"
        (jsObj [("id", .num (.val 123 0)), ("created_at", .str "garbage"),
          ("line_items", jsArr [jsObj [("title", .str "Widget")]])])).1.occurred_at := by
  have h := occurred_at_amended "123" "2024-02-02T00:00:00.000Z"
    (jsObj [("id", .num (.val 123 0)), ("created_at", .str "garbage"),
      ("line_items", jsArr [jsObj [("title", .str "Widget")]])])
  exact ⟨h.1, h.2 _ (List.Mem.head _)⟩

end ShopifyWebhook
